import Mathlib

/-!
Verification of the TChecker symbolic exploration core against its
natural-language specification.

The development shallowly embeds the parts of the C++ sources that the
claims are about:
  * the synchronized product (`src/include/tchecker/syncprod/syncprod.hh`),
  * the zone graph with reference clocks (`src/src/refzg/refzg.cc`),
  * parameter declarations (`src/src/variables/params.cc`),
  * statement read-variable extraction (`src/src/statement/static_analysis.cc`),
  * the covreach node hash (`src/src/tck-reach/zg-covreach.cc`).

Machine integers (`tchecker::integer_t`) are embedded as `Int`; the claims
settled here never exercise overflow. Identifiers (process, location, clock,
variable ids) are embedded as `Nat`. Collaborators that live outside the
given sources (the DBM engine, the typed-expression analysis, the timed
automaton layer `tchecker::ta`) are either modelled from the specification
(marked in their doc comments) or taken as parameters of the theorems.
-/

namespace TChecker

/-- Status codes returned by a step of a transition system, from
`tchecker/basictypes.hh`. Only the constructors exercised by the claims are
kept; `OTHER` stands for the remaining violation codes. -/
inductive StateStatus where
  | OK
  | INCOMPATIBLE_EDGE
  | INTVAR_VIOLATED
  | CLOCKS_SRC_INVARIANT_VIOLATED
  | CLOCKS_GUARD_VIOLATED
  | OTHER
deriving DecidableEq, Repr

/-- Tuple of locations indexed by process identifier (`tchecker::vloc_t`):
entry `p` is the current location id of process `p`. -/
abbrev Vloc := List Nat

/-- Valuation of the bounded integer variables (`tchecker::intval_t`). -/
abbrev Intval := List Int

/-- One edge of one process: owning process id, source location id, target
location id (the fields of `tchecker::system::edge_t` used by the product). -/
structure Edge where
  pid : Nat
  src : Nat
  tgt : Nat
deriving DecidableEq, Repr

/-- A joint edge of the product: the collection of process edges fired
together, as dereferenced from the outgoing-edges iterator
(`tchecker::syncprod::outgoing_edges_value_t`). -/
abbrev JointEdge := List Edge

/-- Discrete system data used by the synchronized product: for each location
id, whether the location is committed (`tchecker::system::loc_t` committed
flag). -/
structure SyncprodSystem where
  committed : Nat → Bool

/-- Set of committed processes at a tuple of locations, as computed by
`tchecker::syncprod::committed_processes`: process `p` is committed iff its
current location `vloc[p]` is committed. -/
def committed_processes (sys : SyncprodSystem) (vloc : Vloc) : List Bool :=
  vloc.map sys.committed

/-- Whether a joint edge involves at least one committed process, as checked
by `outgoing_edges_iterator_t::involves_committed_process`. -/
def involves_committed_process (committedProcs : List Bool) (r : JointEdge) : Bool :=
  r.any (fun e => committedProcs.getD e.pid false)

/-- Modelled from the spec: the outgoing-edges enumeration of
`tchecker::syncprod::outgoing_edges_iterator_t`. The iterator's body
(`syncprod.cc`) is not among the given sources; per the specification and the
header documentation, the iterator lazily advances past joint edges that do
not involve a committed process when some process is committed, and yields
every joint edge when no process is committed. The underlying enumeration of
joint edges (synchronized and asynchronous) is taken as the input list. -/
def outgoing_edges (sys : SyncprodSystem) (vloc : Vloc) (jointEdges : List JointEdge) :
    List JointEdge :=
  let committedProcs := committed_processes sys vloc
  if committedProcs.any id then
    jointEdges.filter (fun r => involves_committed_process committedProcs r)
  else
    jointEdges

/-- Modelled from the spec: `tchecker::syncprod::next` (declared at
`syncprod.hh:250`, body in `syncprod.cc`, not among the given sources). Per
the header documentation: returns `STATE_OK` if the source locations of the
edges match the locations in `vloc` and then replaces, for every process
involved in the joint edge, its location by the target location of its edge,
leaving non-participating processes unchanged; returns
`STATE_INCOMPATIBLE_EDGE` otherwise. The status is an ordinary return value. -/
def syncprod_next (vloc : Vloc) (edges : JointEdge) : StateStatus × Vloc :=
  if edges.all (fun e => vloc.getD e.pid 0 == e.src) then
    (StateStatus.OK,
      (List.range vloc.length).map fun p =>
        match edges.find? (fun e => e.pid == p) with
        | some e => e.tgt
        | none => vloc.getD p 0)
  else
    (StateStatus.INCOMPATIBLE_EDGE, vloc)

/-- Modelled from the spec: `tchecker::syncprod::is_valid_final` (declared at
`syncprod.hh:312`, body in `syncprod.cc`, not among the given sources). The
header documents its return value as `true` for every system and tuple of
locations. -/
def syncprod_is_valid_final (_sys : SyncprodSystem) (_vloc : Vloc) : Bool :=
  true

/-- A zone over reference clocks (`tchecker::refzg::zone_t`). The DBM engine
(`tchecker/dbm/refdbm.hh`) is outside the given sources; the zone is embedded
abstractly by the two predicates the refzg layer queries on it. -/
structure RefZone where
  is_empty : Bool
  is_synchronizable : Bool
deriving DecidableEq, Repr

/-- State of the zone graph with reference clocks
(`tchecker::refzg::state_t`): tuple of locations, integer valuation, zone. -/
structure RefzgState where
  vloc : Vloc
  intval : Intval
  zone : RefZone
deriving DecidableEq, Repr

/-- Final-state validity for refzg, from `refzg.cc:80-83`:
`!s.zone().is_empty() && s.zone().is_synchronizable()`. The `system`
argument is unused, as in the source. -/
def refzg_is_valid_final (_sys : SyncprodSystem) (s : RefzgState) : Bool :=
  !s.zone.is_empty && s.zone.is_synchronizable

/-- Contents of the DBM of a refzg zone, as touched by a step of the
semantics. The entries are abstract: the claims about `refzg::next` concern
when the semantics is allowed to write to the DBM, not the entries
themselves. -/
abbrev Dbm := List Int

/-- Full state manipulated by `tchecker::refzg::next`: tuple of locations,
integer valuation, and the zone DBM it may rewrite in place. -/
structure RefzgFullState where
  vloc : Vloc
  intval : Intval
  dbm : Dbm
deriving DecidableEq, Repr

/-- Step of the zone graph with reference clocks, from `refzg.cc:44-69`.
The discrete step `tchecker::ta::next` and the zone step
`semantics.next` live outside the given sources and are parameters:
`taNext` returns a status together with the updated discrete part,
`semanticsNext` consumes the DBM together with the source and target
delay-allowed vectors and returns a status and the rewritten DBM,
`delayAllowed` embeds `tchecker::ta::delay_allowed`. Mirroring the source:
the source delay-allowed vector is computed first, then the discrete step
runs; if its status is not `OK` that status is returned and the zone DBM is
never touched; otherwise the semantics rewrites the DBM. -/
def refzg_next (taNext : Vloc → Intval → JointEdge → StateStatus × Vloc × Intval)
    (semanticsNext : Dbm → List Bool → List Bool → StateStatus × Dbm)
    (delayAllowed : Vloc → List Bool)
    (s : RefzgFullState) (edges : JointEdge) : StateStatus × RefzgFullState :=
  let srcDelayAllowed := delayAllowed s.vloc
  match taNext s.vloc s.intval edges with
  | (status, vloc1, intval1) =>
    if status ≠ StateStatus.OK then
      (status, { vloc := vloc1, intval := intval1, dbm := s.dbm })
    else
      let tgtDelayAllowed := delayAllowed vloc1
      match semanticsNext s.dbm srcDelayAllowed tgtDelayAllowed with
      | (status2, dbm2) => (status2, { vloc := vloc1, intval := intval1, dbm := dbm2 })

/-- Construction of the refzg implementation, from `refzg.cc:102-114`.
`tchecker::variable_access` is outside the given sources, so whether the
system has a shared variable is a parameter; `refcount` embeds
`_r->refcount()`, the number of reference clocks. The constructor throws
`std::invalid_argument` iff the system has a shared variable and there is
more than one reference clock. -/
def refzg_impl_mk (hasSharedVariable : Bool) (refcount : Nat) :
    Except String (Bool × Nat) :=
  if hasSharedVariable && decide (refcount > 1) then
    Except.error "Zone graph with reference clocks is not sound for systems with shared variables"
  else
    Except.ok (hasSharedVariable, refcount)

/-- Information on a declared parameter (`tchecker::param_info_t`,
`params.hh:33`): array size, minimal value, maximal value. -/
structure ParamInfo where
  size : Nat
  min : Int
  max : Int
deriving DecidableEq, Repr

/-- Modelled from the spec: the base-class constructor
`tchecker::size_info_t` (`variables.hh`, not among the given sources). Per
the documented precondition of `param_info_t` (`params.hh:40-41`) it requires
`size > 0` and throws `std::invalid_argument` otherwise. -/
def size_info_mk (size : Nat) : Except String Nat :=
  if size = 0 then Except.error "expecting size > 0"
  else Except.ok size

/-- Constructor of `param_info_t`, from `params.cc:18-23`: the base class
checks the size, then the constructor throws `std::invalid_argument` with
message "expecting 0 <= min <= max" if `min < 0` or `min > max`; otherwise
the object holds the given bounds. -/
def param_info_mk (size : Nat) (min max : Int) : Except String ParamInfo :=
  match size_info_mk size with
  | Except.error e => Except.error e
  | Except.ok sz =>
    if min < 0 ∨ min > max then Except.error "expecting 0 <= min <= max"
    else Except.ok { size := sz, min := min, max := max }

/-- Declaration of a bounded parameter, from `params.cc:27-33`:
`parameters_t::declare` builds a `param_info_t` (propagating its exception)
and registers it under the given name. The registration in the base class
`array_variables_t` is outside the given sources; the declared info is
returned. -/
def parameters_declare (name : String) (size : Nat) (min max : Int) :
    Except String (String × ParamInfo) :=
  match param_info_mk size min max with
  | Except.error e => Except.error e
  | Except.ok info => Except.ok (name, info)

/-- Sets of variable identifiers accumulated by the static analyses of
statements (`static_analysis.cc`): clock ids, integer-variable ids,
parameter ids. -/
structure VarSets where
  clocks : Finset Nat
  intvars : Finset Nat
  params : Finset Nat
deriving DecidableEq

/-- Union of two triples of variable-id sets: the effect of adding the ids
in `v` to the accumulator `acc`. -/
def VarSets.add (acc v : VarSets) : VarSets :=
  { clocks := acc.clocks ∪ v.clocks
    intvars := acc.intvars ∪ v.intvars
    params := acc.params ∪ v.params }

/-- Empty triple of variable-id sets. -/
def VarSets.empty : VarSets :=
  { clocks := ∅, intvars := ∅, params := ∅ }

/-- Componentwise inclusion of variable-id set triples. -/
def VarSets.Subset (a b : VarSets) : Prop :=
  a.clocks ⊆ b.clocks ∧ a.intvars ⊆ b.intvars ∧ a.params ⊆ b.params

/-- Componentwise set difference of variable-id set triples. -/
def VarSets.sdiff (a b : VarSets) : VarSets :=
  { clocks := a.clocks \ b.clocks
    intvars := a.intvars \ b.intvars
    params := a.params \ b.params }

/-- Typed statement tree (`tchecker::typed_statement_t`), with one
constructor per case of `typed_statement_visitor_t`. The typed-expression
layer is outside the given sources; per the spec, the expression analysis
`tchecker::extract_variables` adds to the accumulator the ids of the
variables occurring in the expression, so each expression position is
embedded by the `VarSets` it contributes. -/
inductive TypedStatement where
  | nop
  | assign (rvalueVars lvalueOffsetVars : VarSets)
  | intToClockAssign (valueVars clockOffsetVars : VarSets)
  | clockToClockAssign (rclockVars lclockOffsetVars : VarSets)
  | sumToClockAssign (rclockVars valueVars lclockOffsetVars : VarSets)
  | paramToClockAssign (valueVars clockOffsetVars : VarSets)
  | seq (first second : TypedStatement)
  | ifStmt (conditionVars : VarSets) (thenStmt elseStmt : TypedStatement)
  | whileStmt (conditionVars : VarSets) (body : TypedStatement)
  | localVar (initialValueVars : VarSets)
  | localArray (sizeVars : VarSets)

/-- Read-variable extraction, from
`extract_read_variables_visitor_t` and `tchecker::extract_read_variables`
(`static_analysis.cc:21-152`): a traversal of the statement tree that adds
the ids read by each node to the accumulator sets, in the visitor's order. -/
def extract_read_variables : TypedStatement → VarSets → VarSets
  | TypedStatement.nop, acc => acc
  | TypedStatement.assign rv lo, acc => (acc.add rv).add lo
  | TypedStatement.intToClockAssign v c, acc => (acc.add v).add c
  | TypedStatement.clockToClockAssign r l, acc => (acc.add r).add l
  | TypedStatement.sumToClockAssign r v l, acc => ((acc.add r).add v).add l
  | TypedStatement.paramToClockAssign v c, acc => (acc.add v).add c
  | TypedStatement.seq s1 s2, acc =>
      extract_read_variables s2 (extract_read_variables s1 acc)
  | TypedStatement.ifStmt c s1 s2, acc =>
      extract_read_variables s2 (extract_read_variables s1 (acc.add c))
  | TypedStatement.whileStmt c s, acc => extract_read_variables s (acc.add c)
  | TypedStatement.localVar v, acc => acc.add v
  | TypedStatement.localArray v, acc => acc.add v

/-- Discrete part of a zone-graph state (the `tchecker::ta` part):
tuple of locations and integer valuation. The zone is not part of it. -/
structure TaState where
  vloc : Vloc
  intval : Intval
deriving DecidableEq, Repr

/-- State of the zone graph stored in a covreach node
(`tchecker::zg::state_t`): discrete part plus a zone, here the abstract
contents of the zone DBM. -/
structure ZgState where
  discrete : TaState
  zone : Dbm
deriving DecidableEq, Repr

/-- Hash of a covreach node, from `zg-covreach.cc:38-43`
(`node_hash_t::operator()`): the hash of the discrete (ta) part of the
node's state, so that all nodes with the same discrete part collide.
`tchecker::ta::shared_hash_value` is outside the given sources and is a
parameter: any function of the discrete part. -/
def node_hash (taSharedHashValue : TaState → Nat) (n : ZgState) : Nat :=
  taSharedHashValue n.discrete

/-- Read sets contributed by a statement alone: the triple of variable-id
sets that `extract_read_variables` adds, independent of the accumulator. -/
def stmt_read_sets : TypedStatement → VarSets
  | TypedStatement.nop => VarSets.empty
  | TypedStatement.assign rv lo => rv.add lo
  | TypedStatement.intToClockAssign v c => v.add c
  | TypedStatement.clockToClockAssign r l => r.add l
  | TypedStatement.sumToClockAssign r v l => (r.add v).add l
  | TypedStatement.paramToClockAssign v c => v.add c
  | TypedStatement.seq s1 s2 => (stmt_read_sets s1).add (stmt_read_sets s2)
  | TypedStatement.ifStmt c s1 s2 => (c.add (stmt_read_sets s1)).add (stmt_read_sets s2)
  | TypedStatement.whileStmt c s => c.add (stmt_read_sets s)
  | TypedStatement.localVar v => v
  | TypedStatement.localArray v => v

/-! ### Theorems -/

theorem VarSets.add_assoc (a b c : VarSets) : (a.add b).add c = a.add (b.add c) := by
  cases a
  cases b
  cases c
  simp [VarSets.add, Finset.union_assoc]

theorem VarSets.add_empty (v : VarSets) : v.add VarSets.empty = v := by
  cases v
  simp [VarSets.add, VarSets.empty]

theorem extract_read_variables_eq_add (s : TypedStatement) (acc : VarSets) :
    extract_read_variables s acc = acc.add (stmt_read_sets s) := by
  induction s generalizing acc with
  | nop => simp [extract_read_variables, stmt_read_sets, VarSets.add_empty]
  | assign rv lo => simp [extract_read_variables, stmt_read_sets, VarSets.add_assoc]
  | intToClockAssign v c => simp [extract_read_variables, stmt_read_sets, VarSets.add_assoc]
  | clockToClockAssign r l => simp [extract_read_variables, stmt_read_sets, VarSets.add_assoc]
  | sumToClockAssign r v l => simp [extract_read_variables, stmt_read_sets, VarSets.add_assoc]
  | paramToClockAssign v c => simp [extract_read_variables, stmt_read_sets, VarSets.add_assoc]
  | seq s1 s2 ih1 ih2 =>
      simp [extract_read_variables, stmt_read_sets, ih1, ih2, VarSets.add_assoc]
  | ifStmt c s1 s2 ih1 ih2 =>
      simp [extract_read_variables, stmt_read_sets, ih1, ih2, VarSets.add_assoc]
  | whileStmt c s ih =>
      simp [extract_read_variables, stmt_read_sets, ih, VarSets.add_assoc]
  | localVar v => simp [extract_read_variables, stmt_read_sets]
  | localArray v => simp [extract_read_variables, stmt_read_sets]

/-- C2: for every state `s` of the zone graph with reference clocks,
`is_valid_final(system, s)` returns true if and only if the zone of `s` is
non-empty and the zone is synchronizable. -/
theorem refzg_is_valid_final_iff (sys : SyncprodSystem) (s : RefzgState) :
    refzg_is_valid_final sys s = true ↔
      s.zone.is_empty = false ∧ s.zone.is_synchronizable = true := by
  obtain ⟨vloc, intval, e, sy⟩ := s
  cases e <;> cases sy <;> simp [refzg_is_valid_final]

/-- C2 witness: a non-empty synchronizable zone is a valid final state. -/
theorem refzg_is_valid_final_iff_witness :
    refzg_is_valid_final ⟨fun _ => false⟩
      ⟨[0], [0], ⟨false, true⟩⟩ = true :=
  (refzg_is_valid_final_iff ⟨fun _ => false⟩ ⟨[0], [0], ⟨false, true⟩⟩).mpr
    ⟨rfl, rfl⟩

/-- C3: in a step of the refzg semantics, the discrete step runs before any
operation on the zone: if it returns a status different from `OK`, `next`
returns that status and the zone DBM of the state is left unmodified. -/
theorem refzg_next_discrete_failure
    (taNext : Vloc → Intval → JointEdge → StateStatus × Vloc × Intval)
    (semanticsNext : Dbm → List Bool → List Bool → StateStatus × Dbm)
    (delayAllowed : Vloc → List Bool)
    (s : RefzgFullState) (edges : JointEdge)
    (status : StateStatus) (vloc1 : Vloc) (intval1 : Intval)
    (htn : taNext s.vloc s.intval edges = (status, vloc1, intval1))
    (hst : status ≠ StateStatus.OK) :
    refzg_next taNext semanticsNext delayAllowed s edges
      = (status, { vloc := vloc1, intval := intval1, dbm := s.dbm }) := by
  simp [refzg_next, htn, hst]

/-- C3 witness: a discrete step yielding `INTVAR_VIOLATED` propagates the
status and leaves the DBM `[5]` of the source state untouched, even though
the zone semantics would rewrite it. -/
theorem refzg_next_discrete_failure_witness :
    refzg_next (fun _ _ _ => (StateStatus.INTVAR_VIOLATED, [], []))
        (fun d _ _ => (StateStatus.OK, 0 :: d)) (fun _ => [])
        ⟨[0], [1], [5]⟩ []
      = (StateStatus.INTVAR_VIOLATED, ⟨[], [], [5]⟩) :=
  refzg_next_discrete_failure (fun _ _ _ => (StateStatus.INTVAR_VIOLATED, [], []))
    (fun d _ _ => (StateStatus.OK, 0 :: d)) (fun _ => [])
    ⟨[0], [1], [5]⟩ [] StateStatus.INTVAR_VIOLATED [] [] rfl (by decide)

/-- C6: the covreach node hash depends only on the discrete part of the
state: two nodes with the same discrete part hash alike, whatever their
zones. -/
theorem node_hash_discrete_only (taSharedHashValue : TaState → Nat)
    (n1 n2 : ZgState) (hdisc : n1.discrete = n2.discrete) :
    node_hash taSharedHashValue n1 = node_hash taSharedHashValue n2 := by
  simp [node_hash, hdisc]

/-- C6 witness: two nodes with the same discrete part `([0], [1])` but
different zones `[2]` and `[3]` collide under the node hash. -/
theorem node_hash_discrete_only_witness :
    node_hash (fun t => t.vloc.length) ⟨⟨[0], [1]⟩, [2]⟩
      = node_hash (fun t => t.vloc.length) ⟨⟨[0], [1]⟩, [3]⟩ :=
  node_hash_discrete_only (fun t => t.vloc.length)
    ⟨⟨[0], [1]⟩, [2]⟩ ⟨⟨[0], [1]⟩, [3]⟩ rfl

/-- C9: for the plain synchronized product, `is_valid_final` returns true
for every system and every tuple of locations: no state of the synchronized
product is ever rejected as an invalid final state. -/
theorem syncprod_is_valid_final_true (sys : SyncprodSystem) (vloc : Vloc) :
    syncprod_is_valid_final sys vloc = true :=
  rfl

/-- C10: constructing a refzg implementation over a system with a shared
variable and more than one reference clock throws `std::invalid_argument`;
with a single reference clock or without shared variables the construction
succeeds. -/
theorem refzg_impl_mk_spec (hasShared : Bool) (refcount : Nat) :
    (hasShared = true → 1 < refcount →
      refzg_impl_mk hasShared refcount = Except.error
        "Zone graph with reference clocks is not sound for systems with shared variables") ∧
    (refcount = 1 ∨ hasShared = false →
      refzg_impl_mk hasShared refcount = Except.ok (hasShared, refcount)) := by
  constructor
  · intro hs hr
    simp [refzg_impl_mk, hs, hr]
  · rintro (hr | hs)
    · simp [refzg_impl_mk, hr]
    · simp [refzg_impl_mk, hs]

/-- C10 witness: with a shared variable and two reference clocks the
construction fails; with a single reference clock it succeeds. -/
theorem refzg_impl_mk_spec_witness :
    refzg_impl_mk true 2 = Except.error
        "Zone graph with reference clocks is not sound for systems with shared variables" ∧
    refzg_impl_mk true 1 = Except.ok (true, 1) :=
  ⟨(refzg_impl_mk_spec true 2).1 rfl (by decide),
   (refzg_impl_mk_spec true 1).2 (Or.inl rfl)⟩

/-- C1: the outgoing-edges enumeration of the synchronized product satisfies
the committed filter: if at least one location in `vloc` is committed, every
joint edge it yields involves at least one committed process; if no location
in `vloc` is committed, it yields all joint edges unfiltered. -/
theorem outgoing_edges_committed_filter (sys : SyncprodSystem) (vloc : Vloc)
    (jointEdges : List JointEdge) :
    ((committed_processes sys vloc).any id = true →
      ∀ r ∈ outgoing_edges sys vloc jointEdges,
        involves_committed_process (committed_processes sys vloc) r = true) ∧
    ((committed_processes sys vloc).any id = false →
      outgoing_edges sys vloc jointEdges = jointEdges) := by
  constructor
  · intro hc r hr
    simp only [outgoing_edges, hc, if_true] at hr
    exact (List.mem_filter.mp hr).2
  · intro hc
    simp [outgoing_edges, hc]

/-- C1 witness: with location 1 committed and current locations `[1, 0]`,
every emitted joint edge moves the committed process 0; the joint edge of
process 1 alone is filtered out. -/
theorem outgoing_edges_committed_filter_witness :
    (committed_processes ⟨fun l => l == 1⟩ [1, 0]).any id = true ∧
    (∀ r ∈ outgoing_edges ⟨fun l => l == 1⟩ [1, 0]
        [[⟨0, 1, 2⟩], [⟨1, 0, 3⟩], [⟨0, 1, 4⟩, ⟨1, 0, 3⟩]],
      involves_committed_process (committed_processes ⟨fun l => l == 1⟩ [1, 0]) r = true) :=
  ⟨by decide,
   (outgoing_edges_committed_filter ⟨fun l => l == 1⟩ [1, 0]
      [[⟨0, 1, 2⟩], [⟨1, 0, 3⟩], [⟨0, 1, 4⟩, ⟨1, 0, 3⟩]]).1 (by decide)⟩

/-- C7: declaring a parameter with `min < 0` or `min > max` fails by
throwing `std::invalid_argument`, both in `param_info_t` and through
`parameters_t::declare`; for `0 <= min <= max` (and a positive size) the
construction succeeds and the object reports exactly the given bounds. -/
theorem param_bounds_checked (size : Nat) (min max : Int) :
    ((min < 0 ∨ min > max) →
      (∃ msg, param_info_mk size min max = Except.error msg) ∧
      ∀ name, ∃ msg, parameters_declare name size min max = Except.error msg) ∧
    (0 ≤ min → min ≤ max → 0 < size →
      param_info_mk size min max = Except.ok ⟨size, min, max⟩ ∧
      ∀ name, parameters_declare name size min max = Except.ok (name, ⟨size, min, max⟩)) := by
  constructor
  · intro hbad
    by_cases hsz : size = 0
    · refine ⟨⟨"expecting size > 0", ?_⟩, fun name => ⟨"expecting size > 0", ?_⟩⟩ <;>
        simp [param_info_mk, parameters_declare, size_info_mk, hsz]
    · refine ⟨⟨"expecting 0 <= min <= max", ?_⟩,
        fun name => ⟨"expecting 0 <= min <= max", ?_⟩⟩ <;>
        simp [param_info_mk, parameters_declare, size_info_mk, hsz, hbad]
  · intro hmin hmax hsz
    have hsz' : size ≠ 0 := Nat.pos_iff_ne_zero.mp hsz
    have hbad : ¬(min < 0 ∨ min > max) := by
      push_neg
      exact ⟨hmin, hmax⟩
    constructor <;>
      simp [param_info_mk, parameters_declare, size_info_mk, hsz', hbad]

/-- C7 witness: `min = -1` is rejected, and `min = 0 ≤ 3 = max` yields a
parameter with exactly those bounds. -/
theorem param_bounds_checked_witness :
    (∃ msg, param_info_mk 1 (-1) 3 = Except.error msg) ∧
    param_info_mk 1 0 3 = Except.ok ⟨1, 0, 3⟩ :=
  ⟨((param_bounds_checked 1 (-1) 3).1 (Or.inl (by decide))).1,
   ((param_bounds_checked 1 0 3).2 (by decide) (by decide) (by decide)).1⟩

/-- C4: for every joint edge whose process ids fit the tuple of locations,
`next` returns `STATE_OK` exactly when the source locations of all edges in
the joint edge match the corresponding locations in `vloc`, and
`STATE_INCOMPATIBLE_EDGE` otherwise; the status is the returned value. -/
theorem syncprod_next_status (vloc : Vloc) (edges : JointEdge)
    (_hpid : ∀ e ∈ edges, e.pid < vloc.length) :
    ((syncprod_next vloc edges).1 = StateStatus.OK ↔
      ∀ e ∈ edges, vloc.getD e.pid 0 = e.src) ∧
    (¬(∀ e ∈ edges, vloc.getD e.pid 0 = e.src) →
      (syncprod_next vloc edges).1 = StateStatus.INCOMPATIBLE_EDGE) := by
  have hiff : (edges.all fun e => vloc.getD e.pid 0 == e.src) = true ↔
      ∀ e ∈ edges, vloc.getD e.pid 0 = e.src := by
    simp [List.all_eq_true]
  by_cases h : ∀ e ∈ edges, vloc.getD e.pid 0 = e.src
  · have hall : (edges.all fun e => vloc.getD e.pid 0 == e.src) = true := hiff.mpr h
    rw [syncprod_next, if_pos hall]
    exact ⟨⟨fun _ => h, fun _ => rfl⟩, fun hcon => absurd h hcon⟩
  · have hall : ¬((edges.all fun e => vloc.getD e.pid 0 == e.src) = true) :=
      fun hh => h (hiff.mp hh)
    rw [syncprod_next, if_neg hall]
    exact ⟨⟨fun hh => StateStatus.noConfusion hh, fun hforall => absurd hforall h⟩,
      fun _ => rfl⟩

/-- C4 witness: at `vloc = [1, 0]`, the joint edge from sources `(1, 0)` is
accepted with `STATE_OK` and the joint edge from source `7` is rejected
with `STATE_INCOMPATIBLE_EDGE`. -/
theorem syncprod_next_status_witness :
    (syncprod_next [1, 0] [⟨0, 1, 2⟩, ⟨1, 0, 3⟩]).1 = StateStatus.OK ∧
    (syncprod_next [1, 0] [⟨0, 7, 2⟩]).1 = StateStatus.INCOMPATIBLE_EDGE :=
  ⟨(syncprod_next_status [1, 0] [⟨0, 1, 2⟩, ⟨1, 0, 3⟩] (by decide)).1.mpr (by decide),
   (syncprod_next_status [1, 0] [⟨0, 7, 2⟩] (by decide)).2 (by decide)⟩

/-- C5: on a successful step of the synchronized product (`STATE_OK`), every
process with an edge in the joint edge has its location replaced by the
target location of its edge, and every process without an edge in the joint
edge keeps its location; the tuple keeps its length. -/
theorem syncprod_next_frame (vloc : Vloc) (edges : JointEdge) (vloc1 : Vloc)
    (p : Nat) (hnext : syncprod_next vloc edges = (StateStatus.OK, vloc1))
    (hp : p < vloc.length) :
    vloc1.length = vloc.length ∧
    (∀ e, edges.find? (fun e2 => e2.pid == p) = some e → vloc1.getD p 0 = e.tgt) ∧
    (edges.find? (fun e2 => e2.pid == p) = none → vloc1.getD p 0 = vloc.getD p 0) := by
  rw [syncprod_next] at hnext
  by_cases hall : (edges.all fun e => vloc.getD e.pid 0 == e.src) = true
  · rw [if_pos hall] at hnext
    have hv : vloc1 = (List.range vloc.length).map fun q =>
        match edges.find? (fun e => e.pid == q) with
        | some e => e.tgt
        | none => vloc.getD q 0 := (Prod.mk.injEq _ _ _ _ ▸ hnext).2.symm
    have hget : vloc1.getD p 0 = match edges.find? (fun e => e.pid == p) with
        | some e => e.tgt
        | none => vloc.getD p 0 := by
      rw [hv, List.getD_eq_getElem?_getD, List.getElem?_map, List.getElem?_range hp]
      rfl
    refine ⟨by simp [hv], ?_, ?_⟩
    · intro e hfind
      rw [hget, hfind]
    · intro hfind
      rw [hget, hfind]
  · rw [if_neg hall] at hnext
    exact absurd (Prod.mk.injEq _ _ _ _ ▸ hnext).1 (by simp)

/-- C5 witness: at `vloc = [1, 0, 4]`, firing the joint edge of processes 0
and 1 moves them to their targets `2` and `3` and leaves the non-participant
process 2 at location `4`. -/
theorem syncprod_next_frame_witness :
    (syncprod_next [1, 0, 4] [⟨0, 1, 2⟩, ⟨1, 0, 3⟩]).2.getD 0 0 = 2 ∧
    (syncprod_next [1, 0, 4] [⟨0, 1, 2⟩, ⟨1, 0, 3⟩]).2.getD 2 0
      = [1, 0, 4].getD 2 0 :=
  ⟨(syncprod_next_frame [1, 0, 4] [⟨0, 1, 2⟩, ⟨1, 0, 3⟩]
      (syncprod_next [1, 0, 4] [⟨0, 1, 2⟩, ⟨1, 0, 3⟩]).2 0 (by decide)
      (by decide)).2.1 ⟨0, 1, 2⟩ (by decide),
   (syncprod_next_frame [1, 0, 4] [⟨0, 1, 2⟩, ⟨1, 0, 3⟩]
      (syncprod_next [1, 0, 4] [⟨0, 1, 2⟩, ⟨1, 0, 3⟩]).2 2 (by decide)
      (by decide)).2.2 (by decide)⟩

/-- C8: `extract_read_variables` is a pure fold over the statement tree:
for a sequence `(s1; s2)` the triple of id sets it adds to the accumulator
equals the union of the triples added for `s1` and for `s2` alone, and the
extraction never removes elements from the sets it is given. -/
theorem extract_read_variables_pure_fold :
    (∀ (s1 s2 : TypedStatement) (acc : VarSets),
      VarSets.sdiff (extract_read_variables (TypedStatement.seq s1 s2) acc) acc =
        VarSets.add (VarSets.sdiff (extract_read_variables s1 acc) acc)
          (VarSets.sdiff (extract_read_variables s2 acc) acc)) ∧
    (∀ (s : TypedStatement) (acc : VarSets),
      VarSets.Subset acc (extract_read_variables s acc)) := by
  constructor
  · intro s1 s2 acc
    rw [extract_read_variables_eq_add, extract_read_variables_eq_add,
      extract_read_variables_eq_add]
    show VarSets.sdiff (acc.add ((stmt_read_sets s1).add (stmt_read_sets s2))) acc = _
    cases acc
    cases hr1 : stmt_read_sets s1
    cases hr2 : stmt_read_sets s2
    simp [VarSets.add, VarSets.sdiff, Finset.union_sdiff_distrib, Finset.sdiff_self]
  · intro s acc
    rw [extract_read_variables_eq_add]
    cases acc
    exact ⟨Finset.subset_union_left, Finset.subset_union_left, Finset.subset_union_left⟩

/-- C8 witness: the clock-id set `{1}` given to the extraction is still
contained in the sets returned for a concrete statement. -/
theorem extract_read_variables_pure_fold_witness :
    VarSets.Subset ⟨{1}, ∅, ∅⟩
      (extract_read_variables
        (TypedStatement.seq (TypedStatement.localVar ⟨{2}, ∅, ∅⟩) TypedStatement.nop)
        ⟨{1}, ∅, ∅⟩) :=
  extract_read_variables_pure_fold.2
    (TypedStatement.seq (TypedStatement.localVar ⟨{2}, ∅, ∅⟩) TypedStatement.nop)
    ⟨{1}, ∅, ∅⟩

end TChecker
